import Mathlib

/-!
Verification of the drone telemetry controller.

Shallow embedding of `src/Shibalik_Roy/Shibalik_drone.py`: the telemetry
decoder `parse_telemetry` (lines 6-30), the crash evaluator `check_crash`
(lines 32-50), and the per-cycle control policy inlined in `drone_control`
(lines 84-120, embedded here as `drone_control_step`).

Python floats are modelled as rationals (`ℚ`); all numeric literals in the
source are exactly representable and the decision logic only compares and
adds, so `ℚ` is a faithful value domain.  Python code that can raise
(`float(...)`, tuple unpacking of the gyro list) is modelled with `Option`.
Character classes of the source regex (`\d`, `\w`) are modelled over ASCII,
which covers every string the development evaluates.
-/

namespace Drone

/-- One item of the source regex: a literal piece, or a greedy one-or-more
repetition of a character class (every group of the source pattern has this
shape). -/
inductive Item where
  | lit : List Char → Item
  | grp : (Char → Bool) → Item

/-- Backtracking matcher for a pattern made of literals and greedy
one-or-more character-class groups, anchored at the start of the input and
ignoring trailing text (the semantics of `re.match` for the source pattern).
Returns the captured groups.  A group first tries the longest run of class
characters, then backtracks to shorter ones, exactly as the greedy `+`
of the source regex does. -/
def mtch : List Item → List Char → Option (List (List Char))
  | [], _ => some []
  | .lit l :: rest, s =>
      if s.take l.length = l then mtch rest (s.drop l.length) else none
  | .grp c :: rest, s =>
      let k := (s.takeWhile c).length
      ((List.range k).map (fun i => k - i)).findSome? (fun m =>
        match mtch rest (s.drop m) with
        | some gs => some (s.take m :: gs)
        | none => none)

/-- ASCII model of the regex class `[-\d.]` (the `X` and `Y` captures). -/
def numClass (c : Char) : Bool := c = '-' || c = '.' || c.isDigit

/-- ASCII model of the regex class `[\d.]` (the `BAT`, `WIND` and `DUST`
captures; note: no `'-'`). -/
def unsignedClass (c : Char) : Bool := c = '.' || c.isDigit

/-- ASCII model of the regex class `[-\d.,]` (the `GYR` capture). -/
def gyroClass (c : Char) : Bool := c = '-' || c = '.' || c = ',' || c.isDigit

/-- ASCII model of the regex class `\w` (the `SENS` capture). -/
def wordClass (c : Char) : Bool := c.isAlphanum || c = '_'

/-- The source pattern (line 8):
`X-([-\d.]+)-Y-([-\d.]+)-BAT-([\d.]+)-GYR-\[([-\d.,]+)\]-WIND-([\d.]+)-DUST-([\d.]+)-SENS-(\w+)`. -/
def telemetryPattern : List Item :=
  [ .lit "X-".toList, .grp numClass,
    .lit "-Y-".toList, .grp numClass,
    .lit "-BAT-".toList, .grp unsignedClass,
    .lit "-GYR-[".toList, .grp gyroClass,
    .lit "]-WIND-".toList, .grp unsignedClass,
    .lit "-DUST-".toList, .grp unsignedClass,
    .lit "-SENS-".toList, .grp wordClass ]

/-- Value of a digit string as a natural number. -/
def digitsVal (l : List Char) : Nat :=
  l.foldl (fun a c => a * 10 + (c.toNat - 48)) 0

/-- Python `float()` on an unsigned literal over the characters that the
source's capture groups can contain (digits and `'.'`): digits with at most
one decimal point and at least one digit; anything else raises
`ValueError`, modelled as `none`. -/
def parseUFloat (l : List Char) : Option ℚ :=
  match l.splitOn '.' with
  | [ip] =>
      if ip ≠ [] ∧ ip.all Char.isDigit then some (digitsVal ip) else none
  | [ip, fp] =>
      if (ip ≠ [] ∨ fp ≠ []) ∧ ip.all Char.isDigit ∧ fp.all Char.isDigit then
        some ((digitsVal ip : ℚ) + (digitsVal fp : ℚ) / 10 ^ fp.length)
      else none
  | _ => none

/-- Python `float()` on the strings the capture groups can produce: an
optional leading `'-'` followed by an unsigned float literal. -/
def parseFloat (l : List Char) : Option ℚ :=
  match l with
  | [] => none
  | c :: rest =>
      if c = '-' then (parseUFloat rest).map (fun q => -q)
      else parseUFloat (c :: rest)

/-- The decoded telemetry record (the dictionary built at lines 20-28).
`gyro` is a list: the source regex does not fix its length (see the
analysis of C1/C2 below). -/
structure TelemetryRecord where
  x : ℚ
  y : ℚ
  battery : ℚ
  gyro : List ℚ
  wind : ℚ
  dust : ℚ
  sensor : String
deriving DecidableEq

/-- `parse_telemetry` (lines 6-30): `re.match` the pattern, then convert
each capture with `float` (the gyro capture is split on `','` and each
piece converted); any `ValueError` yields `None`. -/
def parse_telemetry (s : String) : Option TelemetryRecord := do
  let gs ← mtch telemetryPattern s.toList
  match gs with
  | [g1, g2, g3, g4, g5, g6, g7] => do
      let x ← parseFloat g1
      let y ← parseFloat g2
      let bat ← parseFloat g3
      let gyr ← (g4.splitOn ',').mapM parseFloat
      let wind ← parseFloat g5
      let dust ← parseFloat g6
      pure ⟨x, y, bat, gyr, wind, dust, String.mk g7⟩
  | _ => none

/-- `check_crash` (lines 32-50).  The source computes
`(gx**2 + gy**2 + gz**2)**0.5 > 1.0`; since the sum of squares is
nonnegative, this holds iff the sum itself exceeds `1`, which keeps the
definition computable over `ℚ` (the equivalence with the square-root form
is proved in the theorem for claim C3).  The unpacking
`gx, gy, gz = parsed['gyro']` raises `ValueError` when the list does not
have exactly three elements; that failure is modelled as `none`.  The
earlier conditions return before the unpacking, exactly as in the source. -/
def check_crash (p : TelemetryRecord) : Option Bool :=
  if p.battery ≤ 0 then some true
  else if p.sensor = "RED" ∧ p.y > 3 then some true
  else if p.sensor = "YELLOW" ∧ p.y > 1000 then some true
  else if p.y < 0 then some true
  else if |p.x| > 100000 then some true
  else
    match p.gyro with
    | [gx, gy, gz] => some (decide (gx ^ 2 + gy ^ 2 + gz ^ 2 > 1))
    | _ => none

/-- The controller's remembered state: `current_movement` (the strings
`"fwd"` / `"rev"` of the source) and `speed`, initialised at lines 57-58. -/
structure ControllerState where
  movement : String
  speed : ℤ
deriving DecidableEq

/-- The command dictionary built at lines 116-120.  `altitude` is kept as a
rational: the source value is a Python number that may be an `int` or an
integral `float`, and both compare equal. -/
structure Command where
  speed : ℤ
  altitude : ℚ
  movement : String
deriving DecidableEq

/-- Python `int()` on a float: truncation toward zero. -/
def ratTrunc (q : ℚ) : ℤ := if 0 ≤ q then ⌊q⌋ else ⌈q⌉

/-- Line 105: `current_movement = 'rev' if current_movement == 'fwd' else 'fwd'`. -/
def flipMovement (m : String) : String := if m = "fwd" then "rev" else "fwd"

/-- Lines 85-90: `target_altitude` from the sensor status. -/
def targetAltitude (sensor : String) : ℚ :=
  if sensor = "RED" then 2 else if sensor = "YELLOW" then 999 else 2000

/-- Lines 93-97: the altitude command.  `delta_y` is the distance to the
target; `max_delta = max(10, min(100, abs(delta_y) // 2))` (float floor
division, hence `⌊·⌋`); `altitude_cmd` clamps `int(delta_y)` (truncation
toward zero, hence `ratTrunc`) to `[-max_delta, max_delta]`, and the final
`if abs(delta_y) < 10` overrides it with `0`. -/
def altitudeCmd (sensor : String) (y : ℚ) : ℚ :=
  let delta_y : ℚ := targetAltitude sensor - y
  let max_delta : ℚ := max 10 (min 100 ((⌊|delta_y| / 2⌋ : ℤ) : ℚ))
  let alt0 : ℚ := max (-max_delta) (min max_delta ((ratTrunc delta_y : ℤ) : ℚ))
  if |delta_y| < 10 then 0 else alt0

/-- Lines 100-107: the speed update.  `battery < 20` forces speed `1`;
otherwise `|gx| ≥ 0.8` decrements (floored at `1`) and
`|gx| < 0.5 and battery > 20` increments (capped at `5`). -/
def newSpeed (battery gx : ℚ) (speed : ℤ) : ℤ :=
  if battery < 20 then 1
  else if |gx| ≥ 0.8 then max 1 (speed - 1)
  else if |gx| < 0.5 ∧ battery > 20 then min 5 (speed + 1)
  else speed

/-- Lines 100-113: the movement update: the tilt flip at line 105 (only
reachable when `battery ≥ 20`), then the unconditional lateral override at
lines 110-113. -/
def newMovement (battery gx x : ℚ) (movement : String) : String :=
  let m : String :=
    if battery < 20 then movement
    else if |gx| ≥ 0.8 then flipMovement movement
    else movement
  if x > 90000 then "rev" else if x < -90000 then "fwd" else m

/-- One non-crashed cycle of the control loop (lines 78-120).  The
unpacking `gx, gy, gz = parsed['gyro']` at line 82 raises unless the gyro
list has exactly three elements (`none` here).  Returns the updated state
together with the emitted command (lines 116-120). -/
def drone_control_step (p : TelemetryRecord) (st : ControllerState) :
    Option (ControllerState × Command) :=
  match p.gyro with
  | [gx, _gy, _gz] =>
      some (⟨newMovement p.battery gx p.x st.movement, newSpeed p.battery gx st.speed⟩,
            ⟨newSpeed p.battery gx st.speed, altitudeCmd p.sensor p.y,
             newMovement p.battery gx p.x st.movement⟩)
  | _ => none

/-- Iteration of the control loop body (lines 61-122) over a list of
already-decoded telemetry records, threading the controller state and
collecting the emitted commands. -/
def runPolicy : ControllerState → List TelemetryRecord →
    Option (ControllerState × List Command)
  | st, [] => some (st, [])
  | st, p :: ps =>
      match drone_control_step p st with
      | none => none
      | some (st', cmd) =>
          match runPolicy st' ps with
          | none => none
          | some (stF, cmds) => some (stF, cmd :: cmds)

/-- Positional well-formedness of the captures of a match: each captured
group consists of characters of that group's character class. -/
def groupsOk : List Item → List (List Char) → Prop
  | [], gs => gs = []
  | .lit _ :: rest, gs => groupsOk rest gs
  | .grp c :: rest, gs =>
      match gs with
      | [] => False
      | g :: gs' => (∀ ch ∈ g, c ch) ∧ groupsOk rest gs'

/-- `clamp(v, lo, hi)` as the specification writes it. -/
def clamp (v lo hi : ℚ) : ℚ := max lo (min hi v)

/-- The altitude-command formula exactly as the specification states it:
target from the sensor, `max_delta = clamp(|delta_y| // 2, 10, 100)`,
`altitude_cmd = clamp(truncate(delta_y), -max_delta, max_delta)`, and `0`
whenever `|delta_y| < 10` (dead-band).  Written from the spec's words, to
be compared with the source-derived `altitudeCmd`. -/
def specAltitudeCmd (sensor : String) (y : ℚ) : ℚ :=
  let target : ℚ := if sensor = "RED" then 2 else if sensor = "YELLOW" then 999 else 2000
  let delta_y : ℚ := target - y
  let max_delta : ℚ := clamp ((⌊|delta_y| / 2⌋ : ℤ) : ℚ) 10 100
  if |delta_y| < 10 then 0
  else clamp ((ratTrunc delta_y : ℤ) : ℚ) (-max_delta) max_delta

end Drone

namespace Drone

/-- Characters of a `take` within the `takeWhile` range satisfy the predicate. -/
theorem take_all_of_takeWhile (c : Char → Bool) :
    ∀ (s : List Char) (m : Nat), m ≤ (s.takeWhile c).length → ∀ x ∈ s.take m, c x := by
  intro s
  induction s with
  | nil => intro m _ x hx; simp at hx
  | cons a t ih =>
    intro m hm x hx
    cases m with
    | zero => simp at hx
    | succ m' =>
      by_cases ha : c a
      · rw [List.takeWhile_cons_of_pos ha, List.length_cons, Nat.succ_le_succ_iff] at hm
        rw [List.take_succ_cons] at hx
        rcases List.mem_cons.mp hx with h | h
        · exact h ▸ ha
        · exact ih m' hm x h
      · rw [List.takeWhile_cons_of_neg ha] at hm
        simp at hm

/-- A successful match yields class-respecting captures. -/
theorem mtch_groupsOk :
    ∀ (its : List Item) (s : List Char) (gs : List (List Char)),
      mtch its s = some gs → groupsOk its gs := by
  intro its
  induction its with
  | nil =>
    intro s gs h
    simp only [mtch, Option.some.injEq] at h
    simp [groupsOk, ← h]
  | cons it rest ih =>
    intro s gs h
    cases it with
    | lit l =>
      simp only [mtch] at h
      split at h
      · exact ih _ _ h
      · exact absurd h (by simp)
    | grp c =>
      simp only [mtch] at h
      obtain ⟨m, hmem, hf⟩ := List.exists_of_findSome?_eq_some h
      have hmk : m ≤ (s.takeWhile c).length := by
        simp only [List.mem_map, List.mem_range] at hmem
        omega
      cases hmr : mtch rest (s.drop m) with
      | none => rw [hmr] at hf; exact absurd hf (by simp)
      | some gs' =>
        rw [hmr] at hf
        simp only [Option.some.injEq] at hf
        subst hf
        exact ⟨take_all_of_takeWhile c s m hmk, ih _ _ hmr⟩

end Drone

namespace Drone

/-- An unsigned float literal parses to a nonnegative rational. -/
theorem parseUFloat_nonneg (l : List Char) (q : ℚ) (h : parseUFloat l = some q) :
    0 ≤ q := by
  unfold parseUFloat at h
  split at h
  · split at h
    · simp only [Option.some.injEq] at h
      subst h
      exact Nat.cast_nonneg _
    · exact absurd h (by simp)
  · split at h
    · simp only [Option.some.injEq] at h
      subst h
      positivity
    · exact absurd h (by simp)
  · exact absurd h (by simp)

/-- On a capture whose characters come from the unsigned class
(`BAT`, `WIND`, `DUST`), Python `float` can only produce a nonnegative
value: the class has no `'-'`. -/
theorem parseFloat_unsigned_nonneg (l : List Char)
    (hl : ∀ ch ∈ l, unsignedClass ch) (q : ℚ) (h : parseFloat l = some q) :
    0 ≤ q := by
  cases l with
  | nil => exact Option.noConfusion h
  | cons c rest =>
    have hc : unsignedClass c = true := hl c (by simp)
    have hne : ¬(c = '-') := by
      intro e
      subst e
      simp [unsignedClass, Char.isDigit] at hc
    rw [parseFloat, if_neg hne] at h
    exact parseUFloat_nonneg _ _ h

/-- Every record the decoder can produce has nonnegative `battery`,
`wind` and `dust`: their regex class `[\d.]` has no minus sign. -/
theorem parse_telemetry_unsigned_fields (s : String) (r : TelemetryRecord)
    (h : parse_telemetry s = some r) :
    0 ≤ r.battery ∧ 0 ≤ r.wind ∧ 0 ≤ r.dust := by
  unfold parse_telemetry at h
  cases hm : mtch telemetryPattern s.toList with
  | none => rw [hm] at h; simp at h
  | some gs =>
    rw [hm] at h
    simp only [Option.bind_eq_bind, Option.some_bind] at h
    have hok := mtch_groupsOk _ _ _ hm
    split at h
    · rename_i g1 g2 g3 g4 g5 g6 g7
      simp only [telemetryPattern, groupsOk] at hok
      obtain ⟨h1, h2, h3, h4, h5, h6, h7, -⟩ := hok
      simp only [Option.bind_eq_some, Option.pure_def, Option.some.injEq] at h
      obtain ⟨x, hx, y, hy, bat, hbat, gyr, hgyr, wind, hwind, dust, hdust, hr⟩ := h
      subst hr
      exact ⟨parseFloat_unsigned_nonneg g3 h3 bat hbat,
             parseFloat_unsigned_nonneg g5 h5 wind hwind,
             parseFloat_unsigned_nonneg g6 h6 dust hdust⟩
    · exact absurd h (by simp)

end Drone

namespace Drone

/-- A non-crash verdict forces the gyro list to have exactly three
components (any other shape makes `check_crash` fail instead). -/
theorem check_crash_false_gyro (p : TelemetryRecord)
    (h : check_crash p = some false) : ∃ gx gy gz, p.gyro = [gx, gy, gz] := by
  unfold check_crash at h
  split_ifs at h
  · exact absurd h (by simp)
  · exact absurd h (by simp)
  · exact absurd h (by simp)
  · exact absurd h (by simp)
  · exact absurd h (by simp)
  · split at h
    · rename_i gx gy gz heq
      exact ⟨gx, gy, gz, heq⟩
    · exact absurd h (by simp)

/-- Shape of a successful control step, in terms of the component
functions. -/
theorem drone_control_step_some (p : TelemetryRecord) (st : ControllerState)
    (gx gy gz : ℚ) (hg : p.gyro = [gx, gy, gz]) :
    drone_control_step p st =
      some (⟨newMovement p.battery gx p.x st.movement, newSpeed p.battery gx st.speed⟩,
            ⟨newSpeed p.battery gx st.speed, altitudeCmd p.sensor p.y,
             newMovement p.battery gx p.x st.movement⟩) := by
  rw [drone_control_step.eq_def, hg]

/-- The speed update preserves the domain `[1, 5]`. -/
theorem newSpeed_bounds (b gx : ℚ) (s : ℤ) (h1 : 1 ≤ s) (h5 : s ≤ 5) :
    1 ≤ newSpeed b gx s ∧ newSpeed b gx s ≤ 5 := by
  unfold newSpeed
  split_ifs <;> omega

/-- The source's altitude computation equals the spec's formula. -/
theorem altitudeCmd_eq_spec (sensor : String) (y : ℚ) :
    altitudeCmd sensor y = specAltitudeCmd sensor y := rfl

theorem runPolicy_nil (st : ControllerState) : runPolicy st [] = some (st, []) := rfl

theorem runPolicy_cons (st : ControllerState) (p : TelemetryRecord)
    (ps : List TelemetryRecord) :
    runPolicy st (p :: ps) =
      match drone_control_step p st with
      | none => none
      | some (st', cmd) =>
          match runPolicy st' ps with
          | none => none
          | some (stF, cmds) => some (stF, cmd :: cmds) := rfl

/-- The speed invariant, generalised over the starting state. -/
theorem runPolicy_speed_bounds (ps : List TelemetryRecord) :
    ∀ st : ControllerState, (∀ p ∈ ps, check_crash p = some false) →
      1 ≤ st.speed → st.speed ≤ 5 →
      ∃ stF cmds, runPolicy st ps = some (stF, cmds) ∧
        1 ≤ stF.speed ∧ stF.speed ≤ 5 ∧ ∀ c ∈ cmds, 1 ≤ c.speed ∧ c.speed ≤ 5 := by
  induction ps with
  | nil =>
    intro st _ h1 h5
    exact ⟨st, [], rfl, h1, h5, by simp⟩
  | cons p ps ih =>
    intro st h h1 h5
    obtain ⟨gx, gy, gz, hg⟩ := check_crash_false_gyro p (h p (by simp))
    have hstep := drone_control_step_some p st gx gy gz hg
    obtain ⟨hs1, hs5⟩ := newSpeed_bounds p.battery gx st.speed h1 h5
    obtain ⟨stF, cmds, hrun, hb1, hb5, hc⟩ :=
      ih ⟨newMovement p.battery gx p.x st.movement, newSpeed p.battery gx st.speed⟩
        (fun q hq => h q (List.mem_cons_of_mem _ hq)) hs1 hs5
    refine ⟨stF,
      (⟨newSpeed p.battery gx st.speed, altitudeCmd p.sensor p.y,
        newMovement p.battery gx p.x st.movement⟩ : Command) :: cmds, ?_, hb1, hb5, ?_⟩
    · rw [runPolicy_cons, hstep]
      simp only [hrun]
    · intro c hc'
      rcases List.mem_cons.mp hc' with hceq | hmem
      · subst hceq
        exact ⟨hs1, hs5⟩
      · exact hc c hmem

end Drone

namespace Drone

/-- C1 (code bug): the claim — and the spec's grammar — require exactly
three comma-separated floats in the gyro bracket, with any other count
failing to decode.  The source regex class `[-\d.,]+` never checks the
count, so a two-float bracket decodes to a record with a two-component
gyro list instead of `None`.  This theorem evaluates the decoder at the
failing input. -/
theorem c1_gyro_pair_still_decodes :
    parse_telemetry "X-0-Y-0-BAT-50-GYR-[0.1,0.2]-WIND-0-DUST-0-SENS-GREEN" =
      some ⟨0, 0, 50, [0.1, 0.2], 0, 0, "GREEN"⟩ := by
  with_unfolding_all decide

/-- C2 (code bug): the claim says the crash evaluator is total on every
record the decoder can produce.  But the decoder accepts a four-float gyro
bracket (see C1), and on the resulting record the evaluator's unpacking
`gx, gy, gz = parsed['gyro']` raises (`none` in this embedding). -/
theorem c2_crash_eval_not_total :
    parse_telemetry "X-0-Y-0-BAT-50-GYR-[0.1,0.2,0.3,0.4]-WIND-0-DUST-0-SENS-GREEN" =
      some ⟨0, 0, 50, [0.1, 0.2, 0.3, 0.4], 0, 0, "GREEN"⟩ ∧
    check_crash ⟨0, 0, 50, [0.1, 0.2, 0.3, 0.4], 0, 0, "GREEN"⟩ = none := by
  with_unfolding_all decide

/-- C3: on a record with exactly three gyro components, `check_crash`
answers `true` iff one of the six spec conditions holds, the tilt condition
stated with the square root exactly as the source computes it. -/
theorem c3_check_crash_iff (p : TelemetryRecord) (gx gy gz : ℚ)
    (hg : p.gyro = [gx, gy, gz]) :
    check_crash p = some true ↔
      (p.battery ≤ 0 ∨ (p.sensor = "RED" ∧ p.y > 3) ∨
       (p.sensor = "YELLOW" ∧ p.y > 1000) ∨ p.y < 0 ∨ |p.x| > 100000 ∨
       Real.sqrt ((gx : ℝ) ^ 2 + (gy : ℝ) ^ 2 + (gz : ℝ) ^ 2) > 1) := by
  have hs : Real.sqrt ((gx : ℝ) ^ 2 + (gy : ℝ) ^ 2 + (gz : ℝ) ^ 2) > 1 ↔
      gx ^ 2 + gy ^ 2 + gz ^ 2 > 1 := by
    rw [gt_iff_lt, Real.lt_sqrt (by norm_num), one_pow]
    constructor
    · intro h; exact_mod_cast h
    · intro h; exact_mod_cast h
  unfold check_crash
  rw [hg]
  split_ifs with h1 h2 h3 h4 h5
  · exact iff_of_true rfl (Or.inl h1)
  · exact iff_of_true rfl (Or.inr (Or.inl h2))
  · exact iff_of_true rfl (Or.inr (Or.inr (Or.inl h3)))
  · exact iff_of_true rfl (Or.inr (Or.inr (Or.inr (Or.inl h4))))
  · exact iff_of_true rfl (Or.inr (Or.inr (Or.inr (Or.inr (Or.inl h5)))))
  · have hm : (match [gx, gy, gz] with
        | [a, b, c] => some (decide (a ^ 2 + b ^ 2 + c ^ 2 > 1))
        | _ => (none : Option Bool)) =
        some (decide (gx ^ 2 + gy ^ 2 + gz ^ 2 > 1)) := rfl
    rw [hm]
    simp only [Option.some.injEq, decide_eq_true_eq]
    rw [hs]
    constructor
    · intro hS
      exact Or.inr (Or.inr (Or.inr (Or.inr (Or.inr hS))))
    · rintro (hF | hF | hF | hF | hF | hS)
      · exact absurd hF h1
      · exact absurd hF h2
      · exact absurd hF h3
      · exact absurd hF h4
      · exact absurd hF h5
      · exact hS

/-- Witness for C3 at the spec's tilt-boundary record `(0.6, 0.6, 0.6)`. -/
theorem c3_check_crash_iff_witness :
    check_crash ⟨0, 0, 50, [0.6, 0.6, 0.6], 0, 0, "GREEN"⟩ = some true ↔
      ((50 : ℚ) ≤ 0 ∨ (("GREEN" : String) = "RED" ∧ (0 : ℚ) > 3) ∨
       (("GREEN" : String) = "YELLOW" ∧ (0 : ℚ) > 1000) ∨ (0 : ℚ) < 0 ∨ |(0 : ℚ)| > 100000 ∨
       Real.sqrt (((0.6 : ℚ) : ℝ) ^ 2 + ((0.6 : ℚ) : ℝ) ^ 2 + ((0.6 : ℚ) : ℝ) ^ 2) > 1) :=
  c3_check_crash_iff ⟨0, 0, 50, [0.6, 0.6, 0.6], 0, 0, "GREEN"⟩ 0.6 0.6 0.6 rfl

/-- C4: on every non-crashed record the emitted altitude equals the
spec's clamp/truncate/dead-band formula. -/
theorem c4_altitude_matches_spec (st : ControllerState) (p : TelemetryRecord)
    (h : check_crash p = some false) :
    ∃ st' cmd, drone_control_step p st = some (st', cmd) ∧
      cmd.altitude = specAltitudeCmd p.sensor p.y := by
  obtain ⟨gx, gy, gz, hg⟩ := check_crash_false_gyro p h
  exact ⟨_, _, drone_control_step_some p st gx gy gz hg,
    altitudeCmd_eq_spec p.sensor p.y⟩

/-- Witness for C4 at the spec's dead-band example (`GREEN`, `y = 1995`). -/
theorem c4_altitude_matches_spec_witness :
    ∃ st' cmd,
      drone_control_step ⟨0, 1995, 50, [0, 0, 0], 0, 0, "GREEN"⟩ ⟨"fwd", 3⟩ =
        some (st', cmd) ∧
      cmd.altitude = specAltitudeCmd "GREEN" 1995 :=
  c4_altitude_matches_spec ⟨"fwd", 3⟩ ⟨0, 1995, 50, [0, 0, 0], 0, 0, "GREEN"⟩
    (by with_unfolding_all decide)

/-- C5: the spec's end-to-end scenario, evaluated. -/
theorem c5_end_to_end :
    check_crash ⟨0, 0, 50, [0.9, 0, 0], 0, 0, "GREEN"⟩ = some false ∧
    drone_control_step ⟨0, 0, 50, [0.9, 0, 0], 0, 0, "GREEN"⟩ ⟨"fwd", 3⟩ =
      some (⟨"rev", 2⟩, ⟨2, 100, "rev"⟩) := by
  with_unfolding_all decide

/-- C6 (counterexample): the claim says every numeric field accepts a
leading `'-'`; but the battery capture's class `[\d.]+` has none, so an
otherwise well-formed string with `BAT--5.0` fails to decode instead of
producing a record with battery `-5`. -/
theorem c6_counterexample :
    parse_telemetry "X-1.0-Y-2.0-BAT--5.0-GYR-[0.1,0.2,0.3]-WIND-0-DUST-0-SENS-GREEN" =
      none := by
  with_unfolding_all decide

/-- C6 (amended): `x`, `y` and the gyro components do accept a leading
`'-'` and decode to negative values; `battery`, `wind` and `dust` do not —
a `'-'` there fails the match, and indeed every decoded record has
nonnegative battery, wind and dust. -/
theorem c6_signed_fields :
    parse_telemetry "X--5.0-Y--4.5-BAT-50-GYR-[-0.1,-0.2,-0.3]-WIND-1-DUST-1-SENS-GREEN" =
      some ⟨-5, -4.5, 50, [-0.1, -0.2, -0.3], 1, 1, "GREEN"⟩ ∧
    parse_telemetry "X-1-Y-2-BAT-50-GYR-[0.1,0.2,0.3]-WIND--1-DUST-0-SENS-GREEN" = none ∧
    parse_telemetry "X-1-Y-2-BAT-50-GYR-[0.1,0.2,0.3]-WIND-1-DUST--1-SENS-GREEN" = none ∧
    ∀ (s : String) (r : TelemetryRecord), parse_telemetry s = some r →
      0 ≤ r.battery ∧ 0 ≤ r.wind ∧ 0 ≤ r.dust :=
  ⟨by with_unfolding_all decide, by with_unfolding_all decide,
   by with_unfolding_all decide, parse_telemetry_unsigned_fields⟩

/-- Witness for C6's universal part at a concrete decoded record. -/
theorem c6_signed_fields_witness :
    0 ≤ (TelemetryRecord.mk (-5) (-4.5) 50 [-0.1, -0.2, -0.3] 1 1 "GREEN").battery ∧
    0 ≤ (TelemetryRecord.mk (-5) (-4.5) 50 [-0.1, -0.2, -0.3] 1 1 "GREEN").wind ∧
    0 ≤ (TelemetryRecord.mk (-5) (-4.5) 50 [-0.1, -0.2, -0.3] 1 1 "GREEN").dust :=
  c6_signed_fields.2.2.2
    "X--5.0-Y--4.5-BAT-50-GYR-[-0.1,-0.2,-0.3]-WIND-1-DUST-1-SENS-GREEN" _
    (by with_unfolding_all decide)

/-- C7 (counterexample): the claim asserts the speed increase also
applies at battery exactly `20` (reading the spec's "battery > 20, already
guaranteed by the outer branch").  The outer branch only guarantees
`battery ≥ 20`, and the inner condition `battery > 20` is false at `20`:
the non-crashed record below has battery `20` and `|gx| < 0.5`, yet the
emitted speed stays `3` instead of `min 5 (3 + 1) = 4`. -/
theorem c7_counterexample :
    check_crash ⟨0, 0, 20, [0, 0, 0], 0, 0, "GREEN"⟩ = some false ∧
    |(0 : ℚ)| < 0.5 ∧ ¬((20 : ℚ) < 20) ∧
    drone_control_step ⟨0, 0, 20, [0, 0, 0], 0, 0, "GREEN"⟩ ⟨"fwd", 3⟩ =
      some (⟨"fwd", 3⟩, ⟨3, 100, "fwd"⟩) ∧
    (3 : ℤ) ≠ min 5 (3 + 1) := by
  with_unfolding_all decide

/-- C7 (amended): the speed increase applies exactly when
`battery > 20` (strictly) and `|gx| < 0.5` on a non-crashed record. -/
theorem c7_speed_increase (st : ControllerState) (p : TelemetryRecord)
    (gx gy gz : ℚ) (hg : p.gyro = [gx, gy, gz])
    (_h : check_crash p = some false) (hb : p.battery > 20) (hgx : |gx| < 0.5) :
    ∃ st' cmd, drone_control_step p st = some (st', cmd) ∧
      st'.speed = min 5 (st.speed + 1) ∧ cmd.speed = min 5 (st.speed + 1) := by
  have hns : newSpeed p.battery gx st.speed = min 5 (st.speed + 1) := by
    unfold newSpeed
    rw [if_neg (by linarith), if_neg (not_le.mpr (lt_trans hgx (by norm_num))),
      if_pos ⟨hgx, hb⟩]
  exact ⟨_, _, drone_control_step_some p st gx gy gz hg, hns, hns⟩

/-- Witness for C7 with battery `50 > 20` and `gx = 0`. -/
theorem c7_speed_increase_witness :
    ∃ st' cmd,
      drone_control_step ⟨0, 0, 50, [0, 0, 0], 0, 0, "GREEN"⟩ ⟨"fwd", 3⟩ =
        some (st', cmd) ∧
      st'.speed = min 5 ((3 : ℤ) + 1) ∧ cmd.speed = min 5 ((3 : ℤ) + 1) :=
  c7_speed_increase ⟨"fwd", 3⟩ ⟨0, 0, 50, [0, 0, 0], 0, 0, "GREEN"⟩ 0 0 0 rfl
    (by with_unfolding_all decide) (by with_unfolding_all decide)
    (by with_unfolding_all decide)

/-- C8: battery below 20 forces speed 1 and skips the tilt branch: the
emitted movement is the stored one, changed only by the lateral override. -/
theorem c8_low_battery_override (st : ControllerState) (p : TelemetryRecord)
    (h : check_crash p = some false) (hb : p.battery < 20) :
    ∃ st' cmd, drone_control_step p st = some (st', cmd) ∧
      st'.speed = 1 ∧ cmd.speed = 1 ∧
      cmd.movement =
        (if p.x > 90000 then "rev" else if p.x < -90000 then "fwd" else st.movement) := by
  obtain ⟨gx, gy, gz, hg⟩ := check_crash_false_gyro p h
  have hns : newSpeed p.battery gx st.speed = 1 := by
    unfold newSpeed
    rw [if_pos hb]
  have hnm : newMovement p.battery gx p.x st.movement =
      (if p.x > 90000 then "rev" else if p.x < -90000 then "fwd" else st.movement) := by
    simp only [newMovement]
    rw [if_pos hb]
  exact ⟨_, _, drone_control_step_some p st gx gy gz hg, hns, hns, hnm⟩

/-- Witness for C8: battery `15`, `gx = 0.9` — speed is forced to `1` and
the movement is not flipped despite `|gx| ≥ 0.8`. -/
theorem c8_low_battery_override_witness :
    ∃ st' cmd,
      drone_control_step ⟨0, 0, 15, [0.9, 0, 0], 0, 0, "GREEN"⟩ ⟨"fwd", 3⟩ =
        some (st', cmd) ∧
      st'.speed = 1 ∧ cmd.speed = 1 ∧
      cmd.movement =
        (if (0 : ℚ) > 90000 then "rev" else if (0 : ℚ) < -90000 then "fwd" else "fwd") :=
  c8_low_battery_override ⟨"fwd", 3⟩ ⟨0, 0, 15, [0.9, 0, 0], 0, 0, "GREEN"⟩
    (by with_unfolding_all decide) (by with_unfolding_all decide)

/-- C9: the lateral override runs last: `x > 90000` forces movement
`"rev"` and `x < -90000` forces `"fwd"`, whatever the tilt branch did. -/
theorem c9_lateral_override (st : ControllerState) (p : TelemetryRecord)
    (h : check_crash p = some false) :
    ∃ st' cmd, drone_control_step p st = some (st', cmd) ∧
      (p.x > 90000 → cmd.movement = "rev") ∧
      (p.x < -90000 → cmd.movement = "fwd") := by
  obtain ⟨gx, gy, gz, hg⟩ := check_crash_false_gyro p h
  refine ⟨_, _, drone_control_step_some p st gx gy gz hg, ?_, ?_⟩
  · intro hx
    show newMovement p.battery gx p.x st.movement = "rev"
    simp only [newMovement]
    rw [if_pos hx]
  · intro hx
    show newMovement p.battery gx p.x st.movement = "fwd"
    simp only [newMovement]
    rw [if_neg (by linarith), if_pos hx]

/-- Witness for C9: `x = 95000` with a tilt flip that has just set the
movement to `"fwd"` (stored movement `"rev"`, `gx = 0.9`); the emitted
movement is still `"rev"`. -/
theorem c9_lateral_override_witness :
    ∃ st' cmd,
      drone_control_step ⟨95000, 0, 50, [0.9, 0, 0], 0, 0, "GREEN"⟩ ⟨"rev", 3⟩ =
        some (st', cmd) ∧
      ((95000 : ℚ) > 90000 → cmd.movement = "rev") ∧
      ((95000 : ℚ) < -90000 → cmd.movement = "fwd") :=
  c9_lateral_override ⟨"rev", 3⟩ ⟨95000, 0, 50, [0.9, 0, 0], 0, 0, "GREEN"⟩
    (by with_unfolding_all decide)

/-- C10: from the initial state (`movement = "fwd"`, `speed = 3`), the
speed held in the state and emitted in every command stays in `[1, 5]`
over any sequence of non-crashed records. -/
theorem c10_speed_invariant (ps : List TelemetryRecord)
    (h : ∀ p ∈ ps, check_crash p = some false) :
    ∃ stF cmds, runPolicy ⟨"fwd", 3⟩ ps = some (stF, cmds) ∧
      1 ≤ stF.speed ∧ stF.speed ≤ 5 ∧ ∀ c ∈ cmds, 1 ≤ c.speed ∧ c.speed ≤ 5 :=
  runPolicy_speed_bounds ps ⟨"fwd", 3⟩ h (by decide) (by decide)

/-- Witness for C10 on a one-record sequence. -/
theorem c10_speed_invariant_witness :
    ∃ stF cmds,
      runPolicy ⟨"fwd", 3⟩ [⟨0, 0, 50, [0.9, 0, 0], 0, 0, "GREEN"⟩] =
        some (stF, cmds) ∧
      1 ≤ stF.speed ∧ stF.speed ≤ 5 ∧ ∀ c ∈ cmds, 1 ≤ c.speed ∧ c.speed ≤ 5 :=
  c10_speed_invariant [⟨0, 0, 50, [0.9, 0, 0], 0, 0, "GREEN"⟩] (by
    intro p hp
    rw [List.mem_singleton] at hp
    subst hp
    with_unfolding_all decide)

end Drone
